import Mathlib

/-!
Verification of the port-availability utility (`src/utils/portCheck.ts`).

The module has three operations:
* `isPortAvailable` — probe one port by attempting to bind a listening
  socket to it on the loopback address;
* `findAvailablePort` — scan ports `start, start+1, …` sequentially until a
  probe succeeds or the attempt budget is exhausted (then `-1`);
* `getAvailablePort` — resolve a preferred port, optionally auto-switching
  to the first free port among the next 50.

The operating system is modelled as an oracle `env : Int → BindOutcome`
assigning to each port the outcome of a bind attempt on it.  The scan and
the resolution are sequential and the probe releases its socket before
resolving, so within one call the environment is stable and the oracle is a
faithful abstraction of the sequence of bind attempts.  A separate small
stateful model (`NetState`, `isPortAvailableSt`) makes the bind/close
discipline of the probe explicit for the idempotence property.
-/

namespace PortCheck

/-- Error codes a bind attempt can raise: `EADDRINUSE` (address already in
use), `EACCES` (permission denied), or any other OS-level error. -/
inductive ErrCode where
  | EADDRINUSE : ErrCode
  | EACCES : ErrCode
  | other : ErrCode
deriving DecidableEq

/-- Outcome of attempting to bind a listening socket to a port: either the
server reaches the `listening` state, or an `error` event fires with a code. -/
inductive BindOutcome where
  | listening : BindOutcome
  | error : ErrCode → BindOutcome
deriving DecidableEq

/-- `isPortAvailable(port)`: the promise resolves `true` on the `listening`
event (after closing the server) and `false` on the `error` event — the
source distinguishes `EADDRINUSE`/`EACCES` from other codes only to resolve
`false` in both branches. -/
def isPortAvailable (env : Int → BindOutcome) (port : Int) : Bool :=
  match env port with
  | BindOutcome.listening => true
  | BindOutcome.error c =>
    match c with
    | ErrCode.EADDRINUSE => false
    | ErrCode.EACCES => false
    | ErrCode.other => false

/-- The `for (let i = 0; i < maxAttempts; i++)` loop of `findAvailablePort`,
as structural recursion on the number of remaining attempts, `port` being
`startPort + i`: return `port` on the first successful probe. -/
def findLoop (env : Int → BindOutcome) (port : Int) : Nat → Int
  | 0 => -1
  | n + 1 => if isPortAvailable env port then port else findLoop env (port + 1) n

/-- `findAvailablePort(startPort, maxAttempts)`: scan
`startPort, startPort+1, …` for at most `maxAttempts` attempts; `-1` when
every probe fails.  The loop body runs only while `i < maxAttempts`, hence a
non-positive budget yields zero iterations (`Int.toNat`). -/
def findAvailablePort (env : Int → BindOutcome) (startPort : Int)
    (maxAttempts : Int) : Int :=
  findLoop env startPort maxAttempts.toNat

/-- The sequence of ports probed by `findLoop`, in the order the loop awaits
`isPortAvailable` on them. -/
def findLoopTrace (env : Int → BindOutcome) (port : Int) : Nat → List Int
  | 0 => []
  | n + 1 =>
    if isPortAvailable env port then [port]
    else port :: findLoopTrace env (port + 1) n

/-- The sequence of ports `findAvailablePort(startPort, maxAttempts)` probes. -/
def findAvailablePortTrace (env : Int → BindOutcome) (startPort : Int)
    (maxAttempts : Int) : List Int :=
  findLoopTrace env startPort maxAttempts.toNat

/-- Result record of `getAvailablePort`:
`{ port: number; switched: boolean; message?: string }`. -/
structure PortResolution where
  port : Int
  switched : Bool
  message : Option String
deriving DecidableEq

/-- `getAvailablePort(preferredPort, autoSwitch)`: use the preferred port if
its probe succeeds; otherwise fail when auto-switching is off, else scan
from `preferredPort + 1` with the default 50-attempt budget and either adopt
the found port or report exhaustion of the range
`preferredPort+1 … preferredPort+50`.  Message strings are the source's
template literals, written as explicit concatenations. -/
def getAvailablePort (env : Int → BindOutcome) (preferredPort : Int)
    (autoSwitch : Bool) : PortResolution :=
  let isAvailable := isPortAvailable env preferredPort
  if isAvailable then
    PortResolution.mk preferredPort false none
  else if !autoSwitch then
    PortResolution.mk (-1) false
      (some ("Port " ++ toString preferredPort ++
        " is already in use. Please specify a different port in config.json or enable auto port switching."))
  else
    let availablePort := findAvailablePort env (preferredPort + 1) 50
    if availablePort = -1 then
      PortResolution.mk (-1) false
        (some ("Port " ++ toString preferredPort ++
          " is in use and no available ports found in range " ++
          toString (preferredPort + 1) ++ "-" ++
          toString (preferredPort + 50) ++ "."))
    else
      PortResolution.mk availablePort true
        (some ("Port " ++ toString preferredPort ++
          " is in use, automatically switched to port " ++
          toString availablePort ++ "."))

/-- The sequence of ports `getAvailablePort(preferredPort, autoSwitch)`
probes: the preferred port first, then — only on the auto-switch scan path —
the ports probed by the inner `findAvailablePort` call. -/
def getAvailablePortTrace (env : Int → BindOutcome) (preferredPort : Int)
    (autoSwitch : Bool) : List Int :=
  if isPortAvailable env preferredPort then [preferredPort]
  else if !autoSwitch then [preferredPort]
  else preferredPort :: findAvailablePortTrace env (preferredPort + 1) 50

/-- `strContainsB hay pat` decides whether `pat` occurs as a contiguous
substring of `hay` (used to state the "message contains …" properties). -/
def strContainsB (hay pat : String) : Bool :=
  hay.toList.tails.any (fun t => pat.toList.isPrefixOf t)

/-- A bind-outcome environment the operating system can realize: ports
outside the valid TCP range 0–65535 simply fail the bind attempt (Node's
`listen` raises `ERR_SOCKET_BAD_PORT` before any bind), so no realizable
environment reports `listening` there.  In particular the scan's `-1`
sentinel can never be a free port. -/
def RealizableEnv (env : Int → BindOutcome) : Prop :=
  ∀ p : Int, p < 0 ∨ 65535 < p → env p ≠ BindOutcome.listening

/-- The stateful model of the probe: which ports currently have a socket
bound to them. -/
structure NetState where
  busy : Int → Bool

/-- `server.listen(port)` succeeding: the socket is bound, the port becomes
busy. -/
def bindPort (s : NetState) (p : Int) : NetState :=
  NetState.mk (fun q => if q = p then true else s.busy q)

/-- `server.close()`: the socket is released, the port becomes free again. -/
def closePort (s : NetState) (p : Int) : NetState :=
  NetState.mk (fun q => if q = p then false else s.busy q)

/-- The probe against the stateful model: a busy port fails the bind (state
unchanged); a free port is bound, the `listening` handler closes the server,
and the promise resolves `true`. -/
def isPortAvailableSt (s : NetState) (port : Int) : Bool × NetState :=
  if s.busy port then (false, s)
  else (true, closePort (bindPort s port) port)

/-! ### Shared helper lemmas -/

/-- A list is a Boolean prefix of itself followed by anything. -/
lemma isPrefixOf_append_self (l m : List Char) : l.isPrefixOf (l ++ m) = true := by
  induction l with
  | nil => simp [List.isPrefixOf]
  | cons a as ih => simp [List.isPrefixOf, ih]

/-- A string built as `a ++ p ++ b` contains `p` as a substring. -/
lemma strContainsB_parts (hay a p b : String) (h : hay = a ++ p ++ b) :
    strContainsB hay p = true := by
  subst h
  have htl : (a ++ p ++ b).toList = a.toList ++ (p.toList ++ b.toList) := by
    simp [String.toList]
  refine List.any_eq_true.mpr ⟨p.toList ++ b.toList, ?_, ?_⟩
  · rw [htl]
    exact (List.mem_tails _ _).mpr (List.suffix_append _ _)
  · exact isPrefixOf_append_self _ _

/-- If the first free port at or after `port` within `n` attempts sits at
offset `k`, the loop returns `port + k` and probes exactly
`port, port+1, …, port+k`. -/
lemma findLoop_first (env : Int → BindOutcome) (k : Nat) :
    ∀ (port : Int) (n : Nat), k < n →
      isPortAvailable env (port + k) = true →
      (∀ j : Nat, j < k → isPortAvailable env (port + j) = false) →
      findLoop env port n = port + k ∧
        findLoopTrace env port n =
          (List.range (k + 1)).map (fun j : Nat => port + (j : Int)) := by
  induction k with
  | zero =>
    intro port n hn hfree _
    obtain ⟨m, rfl⟩ := Nat.exists_eq_succ_of_ne_zero (Nat.pos_iff_ne_zero.mp hn)
    have h0 : isPortAvailable env port = true := by simpa using hfree
    constructor
    · simp [findLoop, h0]
    · simp [findLoopTrace, h0, List.range_succ]
  | succ k ih =>
    intro port n hn hfree hbusy
    obtain ⟨m, rfl⟩ := Nat.exists_eq_succ_of_ne_zero (Nat.pos_iff_ne_zero.mp
      (Nat.lt_of_lt_of_le (Nat.zero_lt_succ k) (Nat.le_of_lt hn)))
    have h0 : isPortAvailable env port = false := by
      have := hbusy 0 (Nat.zero_lt_succ k)
      simpa using this
    have hfree' : isPortAvailable env (port + 1 + k) = true := by
      have : port + 1 + (k : Int) = port + ((k : Nat) + 1 : Nat) := by push_cast; ring
      rw [this]; exact hfree
    have hbusy' : ∀ j : Nat, j < k → isPortAvailable env (port + 1 + j) = false := by
      intro j hj
      have hcast : port + 1 + (j : Int) = port + ((j + 1 : Nat) : Int) := by push_cast; ring
      rw [hcast]
      exact hbusy (j + 1) (Nat.succ_lt_succ hj)
    obtain ⟨hres, htr⟩ := ih (port + 1) m (Nat.lt_of_succ_lt_succ hn) hfree' hbusy'
    constructor
    · have : findLoop env port (m + 1) = findLoop env (port + 1) m := by
        simp [findLoop, h0]
      rw [this, hres]; push_cast; ring
    · have hstep : findLoopTrace env port (m + 1) =
          port :: findLoopTrace env (port + 1) m := by
        simp [findLoopTrace, h0]
      rw [hstep, htr]
      conv_rhs => rw [List.range_succ_eq_map, List.map_cons, List.map_map]
      congr 1
      · simp
      · refine List.map_congr_left ?_
        intro j _
        simp only [Function.comp_apply]
        push_cast; ring

/-- If every port in the window is busy, the loop returns `-1`. -/
lemma findLoop_all_busy (env : Int → BindOutcome) :
    ∀ (n : Nat) (port : Int),
      (∀ j : Nat, j < n → isPortAvailable env (port + j) = false) →
      findLoop env port n = -1 := by
  intro n
  induction n with
  | zero => intro port _; rfl
  | succ m ih =>
    intro port hbusy
    have h0 : isPortAvailable env port = false := by
      have := hbusy 0 (Nat.zero_lt_succ m)
      simpa using this
    have hrest : ∀ j : Nat, j < m → isPortAvailable env (port + 1 + j) = false := by
      intro j hj
      have hcast : port + 1 + (j : Int) = port + ((j + 1 : Nat) : Int) := by push_cast; ring
      rw [hcast]
      exact hbusy (j + 1) (Nat.succ_lt_succ hj)
    simp [findLoop, h0]
    exact ih (port + 1) hrest

/-- The loop either exhausts the window (`-1`) or returns a free port inside
it. -/
lemma findLoop_cases (env : Int → BindOutcome) :
    ∀ (n : Nat) (port : Int),
      findLoop env port n = -1 ∨
        ∃ j : Nat, j < n ∧ findLoop env port n = port + j ∧
          isPortAvailable env (port + j) = true := by
  intro n
  induction n with
  | zero => intro port; exact Or.inl rfl
  | succ m ih =>
    intro port
    by_cases h0 : isPortAvailable env port = true
    · refine Or.inr ⟨0, Nat.zero_lt_succ m, ?_, ?_⟩
      · simp [findLoop, h0]
      · simpa using h0
    · have h0' : isPortAvailable env port = false := by
        cases h : isPortAvailable env port with
        | false => rfl
        | true => exact absurd h h0
      have hstep : findLoop env port (m + 1) = findLoop env (port + 1) m := by
        simp [findLoop, h0']
      rcases ih (port + 1) with hnone | ⟨j, hj, hres, hfree⟩
      · exact Or.inl (hstep.trans hnone)
      · refine Or.inr ⟨j + 1, Nat.succ_lt_succ hj, ?_, ?_⟩
        · rw [hstep, hres]; push_cast; ring
        · have hcast : port + ((j + 1 : Nat) : Int) = port + 1 + j := by push_cast; ring
          rw [hcast]; exact hfree

/-! ### Claim theorems -/

/-- Claim C1: for every starting port, attempt budget and availability
environment in which `start + k` is the first free port of the window, the
scan probes `start, start+1, …, start+k` in strictly increasing order,
returns exactly `start + k`, and probes no port greater than `start + k`. -/
theorem findAvailablePort_first_free (env : Int → BindOutcome)
    (start maxAttempts : Int) (k : Nat)
    (hk : (k : Int) < maxAttempts)
    (hfree : isPortAvailable env (start + k) = true)
    (hbusy : ∀ j : Nat, j < k → isPortAvailable env (start + j) = false) :
    findAvailablePort env start maxAttempts = start + k ∧
      findAvailablePortTrace env start maxAttempts =
        (List.range (k + 1)).map (fun j : Nat => start + (j : Int)) ∧
      List.Pairwise (fun p q => p < q) (findAvailablePortTrace env start maxAttempts) ∧
      ∀ p ∈ findAvailablePortTrace env start maxAttempts, p ≤ start + k := by
  have hk' : k < maxAttempts.toNat := by omega
  obtain ⟨hres, htr⟩ := findLoop_first env k start maxAttempts.toNat hk' hfree hbusy
  have htr' : findAvailablePortTrace env start maxAttempts =
      (List.range (k + 1)).map (fun j : Nat => start + (j : Int)) := htr
  refine ⟨hres, htr', ?_, ?_⟩
  · rw [htr']
    refine List.pairwise_map.mpr ?_
    refine (List.pairwise_lt_range (k + 1)).imp ?_
    intro a b hab
    have : (a : Int) < b := by exact_mod_cast hab
    omega
  · intro p hp
    rw [htr'] at hp
    obtain ⟨j, hjmem, rfl⟩ := List.mem_map.mp hp
    have hj : j < k + 1 := List.mem_range.mp hjmem
    have : (j : Int) ≤ k := by exact_mod_cast Nat.lt_succ_iff.mp hj
    omega

/-- Witness for C1 at a concrete environment where only port 8082 is free. -/
theorem findAvailablePort_first_free_witness :
    findAvailablePort
        (fun p => if p = 8082 then BindOutcome.listening
          else BindOutcome.error ErrCode.EADDRINUSE) 8080 50 = 8080 + ((2 : Nat) : Int) ∧
      findAvailablePortTrace
          (fun p => if p = 8082 then BindOutcome.listening
            else BindOutcome.error ErrCode.EADDRINUSE) 8080 50 =
        (List.range (2 + 1)).map (fun j : Nat => (8080 : Int) + (j : Int)) ∧
      List.Pairwise (fun p q => p < q)
        (findAvailablePortTrace
          (fun p => if p = 8082 then BindOutcome.listening
            else BindOutcome.error ErrCode.EADDRINUSE) 8080 50) ∧
      ∀ p ∈ findAvailablePortTrace
          (fun p => if p = 8082 then BindOutcome.listening
            else BindOutcome.error ErrCode.EADDRINUSE) 8080 50,
        p ≤ 8080 + ((2 : Nat) : Int) :=
  findAvailablePort_first_free
    (fun p => if p = 8082 then BindOutcome.listening
      else BindOutcome.error ErrCode.EADDRINUSE)
    8080 50 2 (by decide) (by decide) (by decide)

/-- Claim C2: if every probe over the window fails, the scan returns the
sentinel `-1`. -/
theorem findAvailablePort_exhausted (env : Int → BindOutcome)
    (start maxAttempts : Int)
    (h : ∀ j : Nat, (j : Int) < maxAttempts → isPortAvailable env (start + j) = false) :
    findAvailablePort env start maxAttempts = -1 := by
  refine findLoop_all_busy env maxAttempts.toNat start ?_
  intro j hj
  exact h j (by omega)

/-- Witness for C2: every bind attempt errors, a 3-attempt scan returns -1. -/
theorem findAvailablePort_exhausted_witness :
    findAvailablePort (fun _ => BindOutcome.error ErrCode.other) 8080 3 = -1 :=
  findAvailablePort_exhausted (fun _ => BindOutcome.error ErrCode.other) 8080 3
    (fun _ _ => rfl)

/-- Claim C3: a free preferred port is returned unswitched with no message,
for either value of the auto-switch flag. -/
theorem getAvailablePort_preferred_free (env : Int → BindOutcome)
    (preferred : Int) (autoSwitch : Bool)
    (h : isPortAvailable env preferred = true) :
    getAvailablePort env preferred autoSwitch =
      PortResolution.mk preferred false none := by
  simp [getAvailablePort, h]

/-- Witness for C3 at an all-free environment. -/
theorem getAvailablePort_preferred_free_witness :
    getAvailablePort (fun _ => BindOutcome.listening) 8080 true =
      PortResolution.mk 8080 false none :=
  getAvailablePort_preferred_free (fun _ => BindOutcome.listening) 8080 true rfl

/-- Claim C4: busy preferred port with auto-switching disabled yields
`port = -1`, `switched = false`, a message naming the preferred port, and no
probe beyond the preferred port itself. -/
theorem getAvailablePort_busy_no_autoswitch (env : Int → BindOutcome)
    (preferred : Int)
    (h : isPortAvailable env preferred = false) :
    (getAvailablePort env preferred false).port = -1 ∧
      (getAvailablePort env preferred false).switched = false ∧
      (∃ m, (getAvailablePort env preferred false).message = some m ∧
        strContainsB m (toString preferred) = true) ∧
      getAvailablePortTrace env preferred false = [preferred] := by
  have hres : getAvailablePort env preferred false =
      PortResolution.mk (-1) false
        (some ("Port " ++ toString preferred ++
          " is already in use. Please specify a different port in config.json or enable auto port switching.")) := by
    simp [getAvailablePort, h]
  refine ⟨by rw [hres], by rw [hres], ⟨_, by rw [hres], ?_⟩, ?_⟩
  · exact strContainsB_parts _ "Port " (toString preferred)
      " is already in use. Please specify a different port in config.json or enable auto port switching."
      rfl
  · simp [getAvailablePortTrace, h]

/-- Witness for C4 at an all-busy environment. -/
theorem getAvailablePort_busy_no_autoswitch_witness :
    (getAvailablePort (fun _ => BindOutcome.error ErrCode.EADDRINUSE) 8080 false).port = -1 ∧
      (getAvailablePort (fun _ => BindOutcome.error ErrCode.EADDRINUSE) 8080 false).switched = false ∧
      (∃ m, (getAvailablePort (fun _ => BindOutcome.error ErrCode.EADDRINUSE) 8080 false).message = some m ∧
        strContainsB m (toString (8080 : Int)) = true) ∧
      getAvailablePortTrace (fun _ => BindOutcome.error ErrCode.EADDRINUSE) 8080 false = [(8080 : Int)] :=
  getAvailablePort_busy_no_autoswitch (fun _ => BindOutcome.error ErrCode.EADDRINUSE) 8080 rfl

/-- Claim C5: for every preferred port, over any environment the operating
system can realize, when the preferred port is busy, auto-switching is on,
and `preferred + 1 + k` is the first free port of the fixed 50-port window
`[preferred+1, preferred+50]`, the resolution returns that port with
`switched = true` and a message naming both ports.  A free port is
realizably in range 0–65535, so the found port never collides with the
`-1` sentinel of the inner scan. -/
theorem getAvailablePort_busy_autoswitch_found (env : Int → BindOutcome)
    (preferred : Int)
    (hreal : RealizableEnv env)
    (hbusy : isPortAvailable env preferred = false)
    (k : Nat) (hk : k < 50)
    (hfree : isPortAvailable env (preferred + 1 + k) = true)
    (hfirst : ∀ j : Nat, j < k → isPortAvailable env (preferred + 1 + j) = false) :
    (getAvailablePort env preferred true).port = preferred + 1 + k ∧
      (getAvailablePort env preferred true).switched = true ∧
      ∃ m, (getAvailablePort env preferred true).message = some m ∧
        strContainsB m (toString preferred) = true ∧
        strContainsB m (toString (preferred + 1 + (k : Int))) = true := by
  have h50 : k < ((50 : Int)).toNat := by omega
  obtain ⟨hres, _⟩ := findLoop_first env k (preferred + 1) ((50 : Int)).toNat h50 hfree hfirst
  have hfa : findAvailablePort env (preferred + 1) 50 = preferred + 1 + k := hres
  have hlis : env (preferred + 1 + (k : Int)) = BindOutcome.listening := by
    revert hfree
    unfold isPortAvailable
    cases h : env (preferred + 1 + (k : Int)) with
    | listening => intro _; rfl
    | error c => cases c <;> intro hfree <;> exact absurd hfree (by simp)
  have hrange : ¬ ((preferred + 1 + (k : Int)) < 0 ∨ 65535 < preferred + 1 + (k : Int)) :=
    fun hout => hreal (preferred + 1 + (k : Int)) hout hlis
  have hne : ¬ (preferred + 1 + (k : Int) = -1) := by omega
  have hgoal : getAvailablePort env preferred true =
      PortResolution.mk (preferred + 1 + (k : Int)) true
        (some ("Port " ++ toString preferred ++
          " is in use, automatically switched to port " ++
          toString (preferred + 1 + (k : Int)) ++ ".")) := by
    simp [getAvailablePort, hbusy, hfa, hne]
  refine ⟨by rw [hgoal], by rw [hgoal], ⟨_, by rw [hgoal], ?_, ?_⟩⟩
  · refine strContainsB_parts _ "Port " (toString preferred)
      (" is in use, automatically switched to port " ++
        toString (preferred + 1 + (k : Int)) ++ ".") ?_
    simp [String.append_assoc]
  · exact strContainsB_parts _
      ("Port " ++ toString preferred ++ " is in use, automatically switched to port ")
      (toString (preferred + 1 + (k : Int))) "." rfl

/-- Witness for C5: preferred port 8080 busy, 8081 free, in a realizable
environment that errors outside the valid TCP range. -/
theorem getAvailablePort_busy_autoswitch_found_witness :
    (getAvailablePort
        (fun p => if p = 8080 then BindOutcome.error ErrCode.EADDRINUSE
          else if 0 ≤ p ∧ p ≤ 65535 then BindOutcome.listening
          else BindOutcome.error ErrCode.other) 8080 true).port =
        8080 + 1 + ((0 : Nat) : Int) ∧
      (getAvailablePort
        (fun p => if p = 8080 then BindOutcome.error ErrCode.EADDRINUSE
          else if 0 ≤ p ∧ p ≤ 65535 then BindOutcome.listening
          else BindOutcome.error ErrCode.other) 8080 true).switched = true ∧
      ∃ m, (getAvailablePort
          (fun p => if p = 8080 then BindOutcome.error ErrCode.EADDRINUSE
            else if 0 ≤ p ∧ p ≤ 65535 then BindOutcome.listening
            else BindOutcome.error ErrCode.other) 8080 true).message = some m ∧
        strContainsB m (toString (8080 : Int)) = true ∧
        strContainsB m (toString ((8080 : Int) + 1 + ((0 : Nat) : Int))) = true :=
  getAvailablePort_busy_autoswitch_found
    (fun p => if p = 8080 then BindOutcome.error ErrCode.EADDRINUSE
      else if 0 ≤ p ∧ p ≤ 65535 then BindOutcome.listening
      else BindOutcome.error ErrCode.other)
    8080
    (by
      intro p hp
      have h1 : ¬ p = 8080 := by omega
      have h2 : ¬ (0 ≤ p ∧ p ≤ 65535) := by omega
      simp [h1, h2])
    (by decide) 0 (by decide) (by decide) (by decide)

/-- Claim C6: preferred port busy, auto-switching on, whole 50-port window
busy: the resolution fails with `port = -1`, `switched = false`, and a
message naming the exhausted range `preferred+1`–`preferred+50`. -/
theorem getAvailablePort_busy_autoswitch_exhausted (env : Int → BindOutcome)
    (preferred : Int)
    (hbusy : isPortAvailable env preferred = false)
    (hwin : ∀ j : Nat, j < 50 → isPortAvailable env (preferred + 1 + j) = false) :
    (getAvailablePort env preferred true).port = -1 ∧
      (getAvailablePort env preferred true).switched = false ∧
      ∃ m, (getAvailablePort env preferred true).message = some m ∧
        strContainsB m
          (toString (preferred + 1) ++ "-" ++ toString (preferred + 50)) = true := by
  have hfa : findAvailablePort env (preferred + 1) 50 = -1 := by
    refine findLoop_all_busy env ((50 : Int)).toNat (preferred + 1) ?_
    intro j hj
    exact hwin j (by omega)
  have hgoal : getAvailablePort env preferred true =
      PortResolution.mk (-1) false
        (some ("Port " ++ toString preferred ++
          " is in use and no available ports found in range " ++
          toString (preferred + 1) ++ "-" ++ toString (preferred + 50) ++ ".")) := by
    simp [getAvailablePort, hbusy, hfa]
  refine ⟨by rw [hgoal], by rw [hgoal], ⟨_, by rw [hgoal], ?_⟩⟩
  refine strContainsB_parts _
    ("Port " ++ toString preferred ++ " is in use and no available ports found in range ")
    (toString (preferred + 1) ++ "-" ++ toString (preferred + 50)) "." ?_
  simp [String.append_assoc]

/-- Witness for C6: every bind attempt errors. -/
theorem getAvailablePort_busy_autoswitch_exhausted_witness :
    (getAvailablePort (fun _ => BindOutcome.error ErrCode.EADDRINUSE) 8080 true).port = -1 ∧
      (getAvailablePort (fun _ => BindOutcome.error ErrCode.EADDRINUSE) 8080 true).switched = false ∧
      ∃ m, (getAvailablePort (fun _ => BindOutcome.error ErrCode.EADDRINUSE) 8080 true).message = some m ∧
        strContainsB m
          (toString ((8080 : Int) + 1) ++ "-" ++ toString ((8080 : Int) + 50)) = true :=
  getAvailablePort_busy_autoswitch_exhausted
    (fun _ => BindOutcome.error ErrCode.EADDRINUSE) 8080 rfl (fun _ _ => rfl)

/-- Claim C7: every bind-time error — address in use, permission denied, or
any other OS-level error — makes the probe report `false`, uniformly over
the error codes; the probe is a total function into `Bool`, so no exception
reaches the caller. -/
theorem isPortAvailable_error_flattened (env : Int → BindOutcome)
    (port : Int) (c : ErrCode)
    (h : env port = BindOutcome.error c) :
    isPortAvailable env port = false := by
  unfold isPortAvailable
  rw [h]
  cases c <;> rfl

/-- Witness for C7 at the catch-all error code. -/
theorem isPortAvailable_error_flattened_witness :
    isPortAvailable (fun _ => BindOutcome.error ErrCode.other) 80 = false :=
  isPortAvailable_error_flattened (fun _ => BindOutcome.error ErrCode.other)
    80 ErrCode.other rfl

/-- Claim C8: probing a free port succeeds and leaves no socket bound (the
server is closed before the promise resolves), so an immediately repeated
probe on the same port — with no external interference in between — succeeds
again. -/
theorem isPortAvailableSt_idempotent (s : NetState) (p : Int)
    (h : s.busy p = false) :
    (isPortAvailableSt s p).1 = true ∧
      ((isPortAvailableSt s p).2).busy p = false ∧
      (isPortAvailableSt (isPortAvailableSt s p).2 p).1 = true := by
  have h2 : (closePort (bindPort s p) p).busy p = false := by simp [closePort]
  refine ⟨?_, ?_, ?_⟩
  · simp [isPortAvailableSt, h]
  · simp [isPortAvailableSt, h, h2]
  · simp [isPortAvailableSt, h, h2]

/-- Witness for C8 on the empty network state. -/
theorem isPortAvailableSt_idempotent_witness :
    (isPortAvailableSt (NetState.mk (fun _ => false)) 8080).1 = true ∧
      ((isPortAvailableSt (NetState.mk (fun _ => false)) 8080).2).busy 8080 = false ∧
      (isPortAvailableSt
        (isPortAvailableSt (NetState.mk (fun _ => false)) 8080).2 8080).1 = true :=
  isPortAvailableSt_idempotent (NetState.mk (fun _ => false)) 8080 rfl

/-- Claim C9: a zero or negative attempt budget makes the scan return `-1`
immediately, probing no port. -/
theorem findAvailablePort_nonpos_attempts (env : Int → BindOutcome)
    (start maxAttempts : Int)
    (h : maxAttempts ≤ 0) :
    findAvailablePort env start maxAttempts = -1 ∧
      findAvailablePortTrace env start maxAttempts = [] := by
  have h0 : maxAttempts.toNat = 0 := Int.toNat_of_nonpos h
  constructor
  · show findLoop env start maxAttempts.toNat = -1
    rw [h0]
    rfl
  · show findLoopTrace env start maxAttempts.toNat = []
    rw [h0]
    rfl

/-- Witness for C9 with budget `-3` in an all-free environment. -/
theorem findAvailablePort_nonpos_attempts_witness :
    findAvailablePort (fun _ => BindOutcome.listening) 8080 (-3) = -1 ∧
      findAvailablePortTrace (fun _ => BindOutcome.listening) 8080 (-3) = [] :=
  findAvailablePort_nonpos_attempts (fun _ => BindOutcome.listening) 8080 (-3)
    (by decide)

/-- Claim C10: every resolution result satisfies `switched = true` exactly
when the returned port is neither the `-1` sentinel nor the preferred port;
every failure (`port = -1`) has `switched = false`; and a switched result's
port is at least `preferred + 1`. -/
theorem getAvailablePort_switched_invariant (env : Int → BindOutcome)
    (preferred : Int) (autoSwitch : Bool) :
    ((getAvailablePort env preferred autoSwitch).switched = true ↔
      ((getAvailablePort env preferred autoSwitch).port ≠ -1 ∧
        (getAvailablePort env preferred autoSwitch).port ≠ preferred)) ∧
      ((getAvailablePort env preferred autoSwitch).port = -1 →
        (getAvailablePort env preferred autoSwitch).switched = false) ∧
      ((getAvailablePort env preferred autoSwitch).switched = true →
        preferred + 1 ≤ (getAvailablePort env preferred autoSwitch).port) := by
  by_cases h1 : isPortAvailable env preferred = true
  · simp [getAvailablePort, h1]
  · have h1' : isPortAvailable env preferred = false := by
      cases h : isPortAvailable env preferred with
      | false => rfl
      | true => exact absurd h h1
    cases autoSwitch with
    | false => simp [getAvailablePort, h1']
    | true =>
      rcases findLoop_cases env ((50 : Int)).toNat (preferred + 1) with hnone | hfound
      · have hfa : findAvailablePort env (preferred + 1) 50 = -1 := hnone
        simp [getAvailablePort, h1', hfa]
      · obtain ⟨j, _, hres, _⟩ := hfound
        have hfa : findAvailablePort env (preferred + 1) 50 = preferred + 1 + j := hres
        have hjpos : (0 : Int) ≤ (j : Int) := Int.natCast_nonneg j
        by_cases hne : preferred + 1 + (j : Int) = -1
        · simp [getAvailablePort, h1', hfa, hne]
        · have hgt : preferred + 1 ≤ preferred + 1 + (j : Int) := by omega
          have hnp : preferred + 1 + (j : Int) ≠ preferred := by omega
          simpa [getAvailablePort, h1', hfa, hne, hgt] using hnp

/-- Witness for C10 at a concrete busy-then-free environment. -/
theorem getAvailablePort_switched_invariant_witness :
    ((getAvailablePort
        (fun p => if p = 8080 then BindOutcome.error ErrCode.EADDRINUSE
          else BindOutcome.listening) 8080 true).switched = true ↔
      ((getAvailablePort
          (fun p => if p = 8080 then BindOutcome.error ErrCode.EADDRINUSE
            else BindOutcome.listening) 8080 true).port ≠ -1 ∧
        (getAvailablePort
          (fun p => if p = 8080 then BindOutcome.error ErrCode.EADDRINUSE
            else BindOutcome.listening) 8080 true).port ≠ 8080)) ∧
      ((getAvailablePort
          (fun p => if p = 8080 then BindOutcome.error ErrCode.EADDRINUSE
            else BindOutcome.listening) 8080 true).port = -1 →
        (getAvailablePort
          (fun p => if p = 8080 then BindOutcome.error ErrCode.EADDRINUSE
            else BindOutcome.listening) 8080 true).switched = false) ∧
      ((getAvailablePort
          (fun p => if p = 8080 then BindOutcome.error ErrCode.EADDRINUSE
            else BindOutcome.listening) 8080 true).switched = true →
        (8080 : Int) + 1 ≤ (getAvailablePort
          (fun p => if p = 8080 then BindOutcome.error ErrCode.EADDRINUSE
            else BindOutcome.listening) 8080 true).port) :=
  getAvailablePort_switched_invariant
    (fun p => if p = 8080 then BindOutcome.error ErrCode.EADDRINUSE
      else BindOutcome.listening) 8080 true

end PortCheck
